import Mathlib

/-!
Verification of the FocusBar firmware core (timer state machine, button
classification, LED progress directives) against its natural-language
specification.

The C sources are shallowly embedded:
* machine integers (`uint32_t`, `TickType_t`) become `Nat`, with 32-bit
  wraparound subtraction made explicit where the source subtracts tick
  counts (`wsub`);
* `float` quantities (progress, transition speed) are modelled as exact
  rationals `ℚ` (the smoothing constant `0.02f` becomes `1/50`);
* the FreeRTOS tick rate `configTICK_RATE_HZ` is fixed at its ESP-IDF
  default of 100 ticks per second, so `pdMS_TO_TICKS` is
  `ms * 100 / 1000`;
* static mutable state becomes a record threaded through the functions,
  and `xTaskGetTickCount()` becomes an explicit `now : Nat` parameter.
-/

/-! ## Constants from timer.h, button.c and FreeRTOS -/

/-- ESP-IDF default FreeRTOS tick rate (ticks per second). -/
def configTICK_RATE_HZ : Nat := 100

/-- FreeRTOS `pdMS_TO_TICKS`: milliseconds to ticks. -/
def pdMsToTicks (ms : Nat) : Nat := ms * configTICK_RATE_HZ / 1000

/-- 32-bit wraparound subtraction, as performed on `TickType_t` values
by expressions such as `current_ticks - timer_start_time_ticks`.
Inputs are assumed `< 2^32`. -/
def wsub (a b : Nat) : Nat := (a + 2 ^ 32 - b) % 2 ^ 32

/-- timer.h: `TIMER_DURATION_5MIN`. The header defines this macro as `1`
(one minute), although its name, the surrounding comments and the README
all describe it as five minutes. -/
def TIMER_DURATION_5MIN : Nat := 1

/-- timer.h: `TIMER_DURATION_15MIN`. -/
def TIMER_DURATION_15MIN : Nat := 15

/-- timer.h: `TIMER_DURATION_30MIN`. -/
def TIMER_DURATION_30MIN : Nat := 30

/-- timer.h: `TIMER_DURATION_45MIN`. -/
def TIMER_DURATION_45MIN : Nat := 45

/-- timer.h: `TIMER_DURATION_60MIN`. -/
def TIMER_DURATION_60MIN : Nat := 60

/-- timer.h: `GRACE_PERIOD_SECONDS`. -/
def GRACE_PERIOD_SECONDS : Nat := 60

/-- timer.h: `ALERT_DURATION_SECONDS`. -/
def ALERT_DURATION_SECONDS : Nat := 60

/-- button.h: `NUM_BUTTONS`. -/
def NUM_BUTTONS : Nat := 5

/-- button.c: `DEBOUNCE_MS`. -/
def DEBOUNCE_MS : Nat := 50

/-- button.c: `LONG_PRESS_MS`. -/
def LONG_PRESS_MS : Nat := 500

/-- timer.c: `TRANSITION_SPEED` (`0.02f`), as an exact rational. -/
def TRANSITION_SPEED : ℚ := 1 / 50

/-! ## Timer state machine (timer.c) -/

/-- timer.h: `timer_state_t`. -/
inductive TState where
  | idle
  | running
  | completed
  | gracePeriod
  | alerting
deriving DecidableEq, Repr

/-- The static mutable state of timer.c, gathered into a record. -/
structure TimerSt where
  state : TState
  timer_duration_seconds : Nat
  timer_start_time_ticks : Nat
  grace_period_start_ticks : Nat
  alert_start_ticks : Nat
  current_progress : ℚ
  target_progress : ℚ
deriving DecidableEq, Repr

/-- timer.c: `timer_durations[NUM_BUTTONS]` — durations in minutes mapped
to button indices 0..4. Entry 0 is `TIMER_DURATION_5MIN`, which the
header defines as `1`. -/
def timer_durations : List Nat :=
  [TIMER_DURATION_5MIN, TIMER_DURATION_15MIN, TIMER_DURATION_30MIN,
   TIMER_DURATION_45MIN, TIMER_DURATION_60MIN]

/-- timer.c: `timer_init()` — the state it establishes. -/
def timer_init : TimerSt :=
  { state := .idle
    timer_duration_seconds := 0
    timer_start_time_ticks := 0
    grace_period_start_ticks := 0
    alert_start_ticks := 0
    current_progress := 0
    target_progress := 0 }

/-- timer.c: `timer_stop()`. -/
def timer_stop (s : TimerSt) : TimerSt :=
  if s.state = .idle then s
  else
    { state := .idle
      timer_duration_seconds := 0
      timer_start_time_ticks := 0
      grace_period_start_ticks := 0
      alert_start_ticks := 0
      current_progress := 0
      target_progress := 0 }

/-- timer.c: `timer_reset()` (stop and clear). -/
def timer_reset (s : TimerSt) : TimerSt := timer_stop s

/-- timer.c: `timer_start(duration_minutes)`. `now` is the value
`xTaskGetTickCount()` returns during the call. Returns the C function's
boolean result together with the updated state. -/
def timer_start (now : Nat) (duration_minutes : Nat) (s : TimerSt) :
    Bool × TimerSt :=
  if timer_durations.contains duration_minutes then
    let s1 := timer_stop s
    (true,
      { s1 with
          timer_duration_seconds := duration_minutes * 60
          timer_start_time_ticks := now
          state := .running
          current_progress := 0
          target_progress := 0 })
  else
    (false, s)

/-- timer.c: clamp of `current_progress` to `[0, 1]` after smoothing. -/
def clamp01 (x : ℚ) : ℚ :=
  if x < 0 then 0 else if x > 1 then 1 else x

/-- `pdMS_TO_TICKS(timer_duration_seconds * 1000)` in `timer_update`. -/
def total_duration_ticks (s : TimerSt) : Nat :=
  pdMsToTicks (s.timer_duration_seconds * 1000)

/-- Ticks-to-whole-seconds conversion used throughout timer.c:
`(elapsed_ticks * 1000) / configTICK_RATE_HZ / 1000`. -/
def ticksToSeconds (t : Nat) : Nat := t * 1000 / configTICK_RATE_HZ / 1000

/-- timer.c: `timer_update()`, called with the current tick count. -/
def timer_update (now : Nat) (s : TimerSt) : TimerSt :=
  match s.state with
  | .idle => s
  | .running =>
      let elapsed_ticks := wsub now s.timer_start_time_ticks
      let total := total_duration_ticks s
      let s1 :=
        if total ≤ elapsed_ticks then
          { s with
              target_progress := 1
              state := .completed
              grace_period_start_ticks := now }
        else
          let e := if elapsed_ticks = 0 then 1 else elapsed_ticks
          { s with target_progress := (e : ℚ) / (total : ℚ) }
      let c := s1.current_progress +
        (s1.target_progress - s1.current_progress) * TRANSITION_SPEED
      { s1 with current_progress := clamp01 c }
  | .completed =>
      let s1 := { s with current_progress := 1, target_progress := 1 }
      let grace_elapsed_seconds :=
        ticksToSeconds (wsub now s.grace_period_start_ticks)
      if GRACE_PERIOD_SECONDS ≤ grace_elapsed_seconds then
        { s1 with state := .alerting, alert_start_ticks := now }
      else s1
  | .gracePeriod => s
  | .alerting =>
      let alert_elapsed_seconds :=
        ticksToSeconds (wsub now s.alert_start_ticks)
      if ALERT_DURATION_SECONDS ≤ alert_elapsed_seconds then
        { s with state := .idle, current_progress := 0, target_progress := 0 }
      else s

/-- timer.c: `timer_get_state()`. -/
def timer_get_state (s : TimerSt) : TState := s.state

/-- timer.c: `timer_get_progress()`. -/
def timer_get_progress (s : TimerSt) : ℚ := s.current_progress

/-- timer.c: `timer_get_remaining_seconds()`. -/
def timer_get_remaining_seconds (now : Nat) (s : TimerSt) : Nat :=
  if s.state ≠ .running then 0
  else
    let elapsed_seconds := ticksToSeconds (wsub now s.timer_start_time_ticks)
    if s.timer_duration_seconds ≤ elapsed_seconds then 0
    else s.timer_duration_seconds - elapsed_seconds

/-- timer.c: `timer_handle_button(button_id, is_long_press)`. -/
def timer_handle_button (now : Nat) (button_id : Nat) (is_long_press : Bool)
    (s : TimerSt) : TimerSt :=
  if NUM_BUTTONS ≤ button_id then s
  else
    match s.state with
    | .idle =>
        if !is_long_press then
          (timer_start now (timer_durations.getD button_id 0) s).snd
        else s
    | .running =>
        if !is_long_press then timer_stop s else s
    | .completed => timer_reset s
    | .gracePeriod => timer_reset s
    | .alerting => timer_reset s

/-! ## Basic facts about the embedding -/

theorem wsub_eq_sub {a b : Nat} (hba : b ≤ a) (ha : a < 2 ^ 32) :
    wsub a b = a - b := by
  unfold wsub
  omega

theorem ticksToSeconds_eq (t : Nat) : ticksToSeconds t = t / 100 := by
  unfold ticksToSeconds configTICK_RATE_HZ
  omega

theorem contains_false_of_not_mem {l : List Nat} {d : Nat} (h : d ∉ l) :
    l.contains d = false := by
  simpa using h

/-! ## Claim C1 -/

/-- Claim C1: the claim states that every duration in {5,15,30,45,60}
minutes is accepted by `timer_start` from Idle and that the preset table
maps {5,15,30,45,60} to button indices 0-4.  The code's preset table is
`[1,15,30,45,60]`: `TIMER_DURATION_5MIN` is defined as `1`, contradicting
the macro's own name, the table's comments, the header documentation
"(5, 15, 30, 45, or 60)" and the README.  Consequently `timer_start 5`
from Idle is rejected and leaves the state unchanged, while a preset such
as 15 behaves exactly as claimed (Running, remaining = 15*60 at elapsed 0).
This records the code bug by evaluation. -/
theorem timer_start_five_minute_bug :
    (timer_start 0 5 timer_init).fst = false ∧
    (timer_start 0 5 timer_init).snd = timer_init ∧
    timer_durations = [1, 15, 30, 45, 60] ∧
    (timer_start 0 1 timer_init).fst = true ∧
    (timer_start 0 1 timer_init).snd.timer_duration_seconds = 60 ∧
    (timer_start 0 15 timer_init).fst = true ∧
    (timer_start 0 15 timer_init).snd.state = .running ∧
    timer_get_remaining_seconds 0 (timer_start 0 15 timer_init).snd = 900 := by
  decide

/-! ## Claim C2 -/

/-- Claim C2: for every duration not in the preset table, `timer_start`
returns `false` from any state and leaves the entire timer state
unchanged (state enum, duration, all timestamps, and progress). -/
theorem timer_start_invalid_rejected (now d : Nat) (s : TimerSt)
    (h : d ∉ timer_durations) :
    timer_start now d s = (false, s) := by
  unfold timer_start
  rw [contains_false_of_not_mem h]
  simp

/-- Witness for C2: `timer_start 7` from Idle is rejected and the state
stays Idle. -/
theorem timer_start_invalid_rejected_witness :
    7 ∉ timer_durations ∧
    timer_start 0 7 timer_init = (false, timer_init) ∧
    (timer_start 0 7 timer_init).snd.state = .idle :=
  ⟨by decide, timer_start_invalid_rejected 0 7 timer_init (by decide),
   by decide⟩

/-! ## Helper lemmas about timer_update -/

theorem total_duration_ticks_eq (s : TimerSt) :
    total_duration_ticks s = s.timer_duration_seconds * 100 := by
  unfold total_duration_ticks pdMsToTicks configTICK_RATE_HZ
  omega

/-! ## Claim C4 -/

/-- Claim C4: on a `timer_update` tick while Running, if elapsed ≥
duration (in ticks) the state becomes Completed and `grace_start` is
recorded as the current time; otherwise the target progress is set to
elapsed/duration with elapsed = 0 treated as 1 tick; in both cases the
target progress after the tick is strictly positive. -/
theorem timer_update_running_tick (s : TimerSt) (t : Nat)
    (hs : s.state = .running)
    (hstart : s.timer_start_time_ticks ≤ t) (ht : t < 2 ^ 32)
    (hd : 1 ≤ s.timer_duration_seconds) :
    (total_duration_ticks s ≤ t - s.timer_start_time_ticks →
       (timer_update t s).state = .completed ∧
       (timer_update t s).grace_period_start_ticks = t ∧
       (timer_update t s).target_progress = 1) ∧
    (t - s.timer_start_time_ticks < total_duration_ticks s →
       (timer_update t s).state = .running ∧
       (timer_update t s).target_progress =
         (((if t - s.timer_start_time_ticks = 0 then 1
            else t - s.timer_start_time_ticks) : Nat) : ℚ) /
           ((total_duration_ticks s : Nat) : ℚ)) ∧
    0 < (timer_update t s).target_progress := by
  rcases s with ⟨st, dur, stt, gr, al, cp, tp⟩
  simp only at hs hstart hd
  subst hs
  simp only [timer_update, wsub_eq_sub hstart ht, total_duration_ticks_eq] at *
  split
  case isTrue hle =>
    refine ⟨fun _ => ⟨rfl, rfl, rfl⟩, fun hlt => absurd hle (by omega), ?_⟩
    norm_num
  case isFalse hgt =>
    refine ⟨fun hle => absurd hle hgt, fun _ => ⟨rfl, rfl⟩, ?_⟩
    have hpos : (0 : ℚ) < ((dur * 100 : Nat) : ℚ) := by
      have : (1 : Nat) ≤ dur * 100 := by omega
      exact_mod_cast Nat.lt_of_lt_of_le Nat.zero_lt_one this
    split
    case isTrue =>
      positivity
    case isFalse hne =>
      have h1 : (1 : Nat) ≤ t - stt := by omega
      have h2 : (0 : ℚ) < ((t - stt : Nat) : ℚ) := by exact_mod_cast h1
      positivity

/-- Witness for C4: a 15-minute timer started at tick 0, updated at tick
50 (before completion) and the same theorem applied. -/
theorem timer_update_running_tick_witness :
    ((timer_start 0 15 timer_init).snd.state = .running ∧
      (timer_start 0 15 timer_init).snd.timer_start_time_ticks ≤ 50 ∧
      (50 : Nat) < 2 ^ 32 ∧
      1 ≤ (timer_start 0 15 timer_init).snd.timer_duration_seconds) ∧
    (50 - (timer_start 0 15 timer_init).snd.timer_start_time_ticks <
        total_duration_ticks (timer_start 0 15 timer_init).snd →
      (timer_update 50 (timer_start 0 15 timer_init).snd).state = .running ∧
      (timer_update 50 (timer_start 0 15 timer_init).snd).target_progress =
        (((if 50 - (timer_start 0 15 timer_init).snd.timer_start_time_ticks = 0
           then 1
           else 50 - (timer_start 0 15 timer_init).snd.timer_start_time_ticks) :
            Nat) : ℚ) /
          ((total_duration_ticks (timer_start 0 15 timer_init).snd : Nat) : ℚ)) ∧
    0 < (timer_update 50 (timer_start 0 15 timer_init).snd).target_progress :=
  ⟨⟨by decide, by decide, by decide, by decide⟩,
   (timer_update_running_tick (timer_start 0 15 timer_init).snd 50
      (by decide) (by decide) (by decide) (by decide)).2.1,
   (timer_update_running_tick (timer_start 0 15 timer_init).snd 50
      (by decide) (by decide) (by decide) (by decide)).2.2⟩

/-! ## Claim C5 -/

/-- Claim C5: with no button event, from Completed the state becomes
Alerting (recording `alert_start = now`) exactly once 60 seconds have
elapsed since `grace_start`, and from Alerting the state becomes Idle
with progress reset to 0 exactly once 60 seconds have elapsed since
`alert_start`; before each 60-second window expires the state does not
change.  Elapsed seconds are computed the way the code computes them,
`ticksToSeconds (wsub now start)`. -/
theorem timer_grace_and_alert_windows (s : TimerSt) (t : Nat)
    (ht : t < 2 ^ 32) :
    (s.state = .completed → s.grace_period_start_ticks ≤ t →
      (ticksToSeconds (wsub t s.grace_period_start_ticks) <
          GRACE_PERIOD_SECONDS →
        (timer_update t s).state = .completed ∧
        (timer_update t s).alert_start_ticks = s.alert_start_ticks) ∧
      (GRACE_PERIOD_SECONDS ≤
          ticksToSeconds (wsub t s.grace_period_start_ticks) →
        (timer_update t s).state = .alerting ∧
        (timer_update t s).alert_start_ticks = t)) ∧
    (s.state = .alerting → s.alert_start_ticks ≤ t →
      (ticksToSeconds (wsub t s.alert_start_ticks) <
          ALERT_DURATION_SECONDS →
        timer_update t s = s) ∧
      (ALERT_DURATION_SECONDS ≤ ticksToSeconds (wsub t s.alert_start_ticks) →
        (timer_update t s).state = .idle ∧
        (timer_update t s).current_progress = 0 ∧
        (timer_update t s).target_progress = 0)) := by
  constructor
  · intro hst hle
    rcases s with ⟨st, dur, stt, gr, al, cp, tp⟩
    simp only at hst hle
    subst hst
    simp only [timer_update]
    constructor
    · intro hlt
      rw [if_neg (by omega)]
      exact ⟨rfl, rfl⟩
    · intro hge
      rw [if_pos hge]
      exact ⟨rfl, rfl⟩
  · intro hst hle
    rcases s with ⟨st, dur, stt, gr, al, cp, tp⟩
    simp only at hst hle
    subst hst
    simp only [timer_update]
    constructor
    · intro hlt
      rw [if_neg (by omega)]
    · intro hge
      rw [if_pos hge]
      exact ⟨rfl, rfl, rfl⟩

/-- Witness for C5: a Completed state whose grace period began at tick 0,
updated at tick 6000 (= 60 s at 100 ticks/s): the state becomes Alerting
with `alert_start` = 6000. -/
theorem timer_grace_and_alert_windows_witness :
    (6000 : Nat) < 2 ^ 32 ∧
    (({ timer_init with state := .completed } : TimerSt).state = .completed ∧
      ({ timer_init with state := .completed } : TimerSt).grace_period_start_ticks
        ≤ 6000 ∧
      GRACE_PERIOD_SECONDS ≤
        ticksToSeconds
          (wsub 6000
            ({ timer_init with state := .completed } :
              TimerSt).grace_period_start_ticks)) ∧
    ((timer_update 6000 ({ timer_init with state := .completed } :
        TimerSt)).state = .alerting ∧
      (timer_update 6000 ({ timer_init with state := .completed } :
        TimerSt)).alert_start_ticks = 6000) :=
  ⟨by decide, ⟨by decide, by decide, by decide⟩,
   ((timer_grace_and_alert_windows { timer_init with state := .completed }
        6000 (by decide)).1 (by decide) (by decide)).2 (by decide)⟩

/-! ## Claim C6 -/

theorem timer_durations_getD_mem (b : Nat) (hb : b < NUM_BUTTONS) :
    timer_durations.contains (timer_durations.getD b 0) = true := by
  unfold NUM_BUTTONS at hb
  interval_cases b <;> decide

/-- Claim C6: `timer_handle_button` routes presses by state.  In Idle a
short press on button `b` starts a session of the preset duration of
button `b` (in seconds, duration*60) while a long press has no effect; in
Running a short press cancels to Idle; in Completed, GracePeriod or
Alerting any press, short or long, resets the timer to the fully cleared
Idle state (which equals the `timer_init` state). -/
theorem timer_handle_button_routing (s : TimerSt) (t b : Nat) (lp : Bool)
    (hb : b < NUM_BUTTONS) :
    (s.state = .idle → lp = false →
       (timer_handle_button t b lp s).state = .running ∧
       (timer_handle_button t b lp s).timer_duration_seconds =
         timer_durations.getD b 0 * 60 ∧
       (timer_handle_button t b lp s).timer_start_time_ticks = t ∧
       (timer_handle_button t b lp s).current_progress = 0 ∧
       (timer_handle_button t b lp s).target_progress = 0) ∧
    (s.state = .idle → lp = true → timer_handle_button t b lp s = s) ∧
    (s.state = .running → lp = false →
       (timer_handle_button t b lp s).state = .idle) ∧
    (s.state = .completed ∨ s.state = .gracePeriod ∨ s.state = .alerting →
       timer_handle_button t b lp s = timer_init) := by
  have hbne : ¬ NUM_BUTTONS ≤ b := by omega
  refine ⟨?_, ?_, ?_, ?_⟩
  · intro hst hlp
    subst hlp
    rcases s with ⟨st, dur, stt, gr, al, cp, tp⟩
    simp only at hst
    subst hst
    unfold NUM_BUTTONS at hb
    interval_cases b <;>
      simp [timer_handle_button, timer_start, timer_stop, timer_durations,
        TIMER_DURATION_5MIN, TIMER_DURATION_15MIN, TIMER_DURATION_30MIN,
        TIMER_DURATION_45MIN, TIMER_DURATION_60MIN, NUM_BUTTONS]
  · intro hst hlp
    subst hlp
    rcases s with ⟨st, dur, stt, gr, al, cp, tp⟩
    simp only at hst
    subst hst
    simp [timer_handle_button, if_neg hbne]
  · intro hst hlp
    subst hlp
    rcases s with ⟨st, dur, stt, gr, al, cp, tp⟩
    simp only at hst
    subst hst
    simp [timer_handle_button, if_neg hbne, timer_stop]
  · intro hst
    rcases s with ⟨st, dur, stt, gr, al, cp, tp⟩
    simp only at hst
    rcases hst with h | h | h <;> subst h <;>
      simp [timer_handle_button, if_neg hbne, timer_reset, timer_stop,
        timer_init]

/-- Witness for C6: a short press on button 1 in the Idle initial state
starts a 15-minute (900 s) session. -/
theorem timer_handle_button_routing_witness :
    (1 : Nat) < NUM_BUTTONS ∧
    timer_init.state = .idle ∧
    (timer_handle_button 0 1 false timer_init).state = .running ∧
    (timer_handle_button 0 1 false timer_init).timer_duration_seconds =
      timer_durations.getD 1 0 * 60 :=
  ⟨by decide, by decide,
   ((timer_handle_button_routing timer_init 0 1 false (by decide)).1
      (by decide) rfl).1,
   ((timer_handle_button_routing timer_init 0 1 false (by decide)).1
      (by decide) rfl).2.1⟩

/-! ## Claim C10 -/

/-- The operations of the timer module's public interface, each carrying
the tick count at which it is invoked. -/
inductive TimerOp where
  | start (now duration_minutes : Nat)
  | stop
  | reset
  | update (now : Nat)
  | button (now button_id : Nat) (is_long_press : Bool)

/-- Interpretation of one interface call on the timer state. -/
def applyOp (s : TimerSt) (op : TimerOp) : TimerSt :=
  match op with
  | .start now d => (timer_start now d s).snd
  | .stop => timer_stop s
  | .reset => timer_reset s
  | .update now => timer_update now s
  | .button now b lp => timer_handle_button now b lp s

theorem timer_start_state_ne_grace (now d : Nat) (s : TimerSt)
    (h : s.state ≠ .gracePeriod) :
    (timer_start now d s).snd.state ≠ .gracePeriod := by
  unfold timer_start
  split
  · simp
  · simpa using h

theorem timer_stop_state_ne_grace (s : TimerSt)
    (h : s.state ≠ .gracePeriod) :
    (timer_stop s).state ≠ .gracePeriod := by
  unfold timer_stop
  split
  · simpa using h
  · simp

theorem applyOp_state_ne_grace (s : TimerSt) (op : TimerOp)
    (h : s.state ≠ .gracePeriod) :
    (applyOp s op).state ≠ .gracePeriod := by
  cases op with
  | start now d => exact timer_start_state_ne_grace now d s h
  | stop => exact timer_stop_state_ne_grace s h
  | reset => exact timer_stop_state_ne_grace s h
  | update now =>
      rcases s with ⟨st, dur, stt, gr, al, cp, tp⟩
      simp only at h
      simp only [applyOp]
      cases st with
      | idle => simpa [timer_update] using h
      | running =>
          simp only [timer_update]
          split <;> simp
      | completed =>
          simp only [timer_update]
          split <;> simp
      | gracePeriod => exact absurd rfl h
      | alerting =>
          simp only [timer_update]
          split <;> simp
  | button now b lp =>
      rcases s with ⟨st, dur, stt, gr, al, cp, tp⟩
      simp only at h
      by_cases hble : NUM_BUTTONS ≤ b
      · simpa [applyOp, timer_handle_button, hble] using h
      · cases st with
        | idle =>
            cases lp with
            | false =>
                simp only [applyOp, timer_handle_button, if_neg hble]
                simp only [Bool.not_false, if_true]
                exact timer_start_state_ne_grace now _ _ (by simp)
            | true => simpa [applyOp, timer_handle_button, hble] using h
        | running =>
            cases lp with
            | false =>
                simp only [applyOp, timer_handle_button, if_neg hble]
                simp only [Bool.not_false, if_true]
                exact timer_stop_state_ne_grace _ (by simp)
            | true => simpa [applyOp, timer_handle_button, hble] using h
        | completed =>
            simp only [applyOp, timer_handle_button, if_neg hble, timer_reset]
            exact timer_stop_state_ne_grace _ (by simp)
        | gracePeriod => exact absurd rfl h
        | alerting =>
            simp only [applyOp, timer_handle_button, if_neg hble, timer_reset]
            exact timer_stop_state_ne_grace _ (by simp)

theorem foldl_applyOp_ne_grace (ops : List TimerOp) :
    ∀ s : TimerSt, s.state ≠ .gracePeriod →
      (ops.foldl applyOp s).state ≠ .gracePeriod := by
  induction ops with
  | nil => intro s hs; simpa using hs
  | cons op rest ih =>
      intro s hs
      exact ih (applyOp s op) (applyOp_state_ne_grace s op hs)

/-- Claim C10: starting from the `timer_init` state, no sequence of calls
to `timer_start`, `timer_stop`, `timer_reset`, `timer_update` and
`timer_handle_button` (at arbitrary tick counts) ever reaches the
`TIMER_STATE_GRACE_PERIOD` state: no transition assigns it. -/
theorem grace_period_state_unreachable (ops : List TimerOp) :
    timer_get_state (ops.foldl applyOp timer_init) ≠ .gracePeriod :=
  foldl_applyOp_ne_grace ops timer_init (by decide)

/-! ## Claim C3: progress smoothing and completion -/

theorem clamp01_bounds (x : ℚ) : 0 ≤ clamp01 x ∧ clamp01 x ≤ 1 := by
  unfold clamp01
  split_ifs <;> constructor <;> linarith

theorem clamp01_eq_of_bounds {x : ℚ} (h0 : 0 ≤ x) (h1 : x ≤ 1) :
    clamp01 x = x := by
  unfold clamp01
  split_ifs <;> linarith

theorem smooth_mono {c t : ℚ} (h0 : 0 ≤ c) (hct : c ≤ t) (ht1 : t ≤ 1) :
    c ≤ c + (t - c) * TRANSITION_SPEED ∧
    c + (t - c) * TRANSITION_SPEED ≤ t ∧
    clamp01 (c + (t - c) * TRANSITION_SPEED) =
      c + (t - c) * TRANSITION_SPEED := by
  unfold TRANSITION_SPEED
  refine ⟨by nlinarith, by nlinarith,
    clamp01_eq_of_bounds (by nlinarith) (by nlinarith)⟩

/-- The target progress value `timer_update` computes for a Running state
at tick count `t` (the `target_progress` assignment of the Running case,
with the source's let-bindings expanded). -/
def runTargetAt (s : TimerSt) (t : Nat) : ℚ :=
  if total_duration_ticks s ≤ wsub t s.timer_start_time_ticks then 1
  else
    (((if wsub t s.timer_start_time_ticks = 0 then 1
        else wsub t s.timer_start_time_ticks) : Nat) : ℚ) /
      ((total_duration_ticks s : Nat) : ℚ)

theorem runTargetAt_le_one (s : TimerSt) (t : Nat)
    (hd : 1 ≤ s.timer_duration_seconds) : runTargetAt s t ≤ 1 := by
  unfold runTargetAt
  have htot : 100 ≤ total_duration_ticks s := by
    rw [total_duration_ticks_eq]
    omega
  split
  case isTrue => exact le_refl 1
  case isFalse hlt =>
    have htotQ : (0 : ℚ) < ((total_duration_ticks s : Nat) : ℚ) := by
      exact_mod_cast Nat.lt_of_lt_of_le (by norm_num) htot
    rw [div_le_one htotQ]
    have he : (if wsub t s.timer_start_time_ticks = 0 then 1
        else wsub t s.timer_start_time_ticks) ≤ total_duration_ticks s := by
      split <;> omega
    exact_mod_cast he

theorem runTargetAt_lt_one (s : TimerSt) (t : Nat)
    (hd : 1 ≤ s.timer_duration_seconds)
    (hlt : ¬ total_duration_ticks s ≤ wsub t s.timer_start_time_ticks) :
    runTargetAt s t < 1 := by
  unfold runTargetAt
  have htot : 100 ≤ total_duration_ticks s := by
    rw [total_duration_ticks_eq]
    omega
  rw [if_neg hlt]
  have htotQ : (0 : ℚ) < ((total_duration_ticks s : Nat) : ℚ) := by
    exact_mod_cast Nat.lt_of_lt_of_le (by norm_num) htot
  rw [div_lt_one htotQ]
  have he : (if wsub t s.timer_start_time_ticks = 0 then 1
      else wsub t s.timer_start_time_ticks) < total_duration_ticks s := by
    split <;> omega
  exact_mod_cast he

theorem runTargetAt_mono (s : TimerSt) (t1 t2 : Nat) (h12 : t1 ≤ t2)
    (hst : s.timer_start_time_ticks ≤ t1) (ht2 : t2 < 2 ^ 32)
    (hd : 1 ≤ s.timer_duration_seconds) :
    runTargetAt s t1 ≤ runTargetAt s t2 := by
  have ht1 : t1 < 2 ^ 32 := Nat.lt_of_le_of_lt h12 ht2
  have hw1 : wsub t1 s.timer_start_time_ticks = t1 - s.timer_start_time_ticks :=
    wsub_eq_sub hst ht1
  have hw2 : wsub t2 s.timer_start_time_ticks = t2 - s.timer_start_time_ticks :=
    wsub_eq_sub (le_trans hst h12) ht2
  by_cases h2 : total_duration_ticks s ≤ wsub t2 s.timer_start_time_ticks
  · have hone : runTargetAt s t2 = 1 := by
      unfold runTargetAt
      rw [if_pos h2]
    rw [hone]
    exact runTargetAt_le_one s t1 hd
  · have h1 : ¬ total_duration_ticks s ≤ wsub t1 s.timer_start_time_ticks := by
      rw [hw1]
      rw [hw2] at h2
      omega
    unfold runTargetAt
    rw [if_neg h1, if_neg h2, hw1, hw2]
    have htot : 100 ≤ total_duration_ticks s := by
      rw [total_duration_ticks_eq]
      omega
    have htotQ : (0 : ℚ) < ((total_duration_ticks s : Nat) : ℚ) := by
      exact_mod_cast Nat.lt_of_lt_of_le (by norm_num) htot
    rw [div_le_div_iff_of_pos_right htotQ]
    have he : (if t1 - s.timer_start_time_ticks = 0 then 1
          else t1 - s.timer_start_time_ticks) ≤
        (if t2 - s.timer_start_time_ticks = 0 then 1
          else t2 - s.timer_start_time_ticks) := by
      split_ifs <;> omega
    exact_mod_cast he

/-- Characterization of `timer_update` on a Running state whose session
has reached its duration: state becomes Completed, the grace timestamp is
recorded, target pinned to 1, and the smoothed progress takes one step
toward 1. -/
theorem timer_update_run_complete_eq (s : TimerSt) (t : Nat)
    (hs : s.state = .running)
    (hge : total_duration_ticks s ≤ wsub t s.timer_start_time_ticks) :
    timer_update t s =
      { s with
          state := .completed
          grace_period_start_ticks := t
          target_progress := 1
          current_progress :=
            clamp01 (s.current_progress +
              (1 - s.current_progress) * TRANSITION_SPEED) } := by
  rcases s with ⟨st, dur, stt, gr, al, cp, tp⟩
  simp only at hs hge
  subst hs
  simp only [timer_update, if_pos hge]

/-- Characterization of `timer_update` on a Running state before the
session duration: state stays Running, target becomes `runTargetAt`, and
the smoothed progress takes one step toward it. -/
theorem timer_update_run_tick_eq (s : TimerSt) (t : Nat)
    (hs : s.state = .running)
    (hlt : ¬ total_duration_ticks s ≤ wsub t s.timer_start_time_ticks) :
    timer_update t s =
      { s with
          target_progress := runTargetAt s t
          current_progress :=
            clamp01 (s.current_progress +
              (runTargetAt s t - s.current_progress) * TRANSITION_SPEED) } := by
  rcases s with ⟨st, dur, stt, gr, al, cp, tp⟩
  simp only at hs hlt
  subst hs
  simp only [timer_update, if_neg hlt]
  unfold runTargetAt
  simp only [if_neg hlt]

/-- The invariant the timer state satisfies while Running, relative to a
tick count `t` that `timer_update` has not yet observed. -/
def RunningInv (s : TimerSt) (t : Nat) : Prop :=
  s.state = .running ∧
  s.timer_start_time_ticks ≤ t ∧
  t < 2 ^ 32 ∧
  1 ≤ s.timer_duration_seconds ∧
  0 ≤ s.current_progress ∧
  s.current_progress ≤ s.target_progress ∧
  s.target_progress ≤ runTargetAt s t

theorem timer_update_running_step (s : TimerSt) (t1 : Nat)
    (h : RunningInv s t1) :
    s.current_progress ≤ (timer_update t1 s).current_progress ∧
    (timer_update t1 s).current_progress ≤ 1 ∧
    ((total_duration_ticks s ≤ wsub t1 s.timer_start_time_ticks ∧
        (timer_update t1 s).state = .completed) ∨
      (¬ total_duration_ticks s ≤ wsub t1 s.timer_start_time_ticks ∧
        (timer_update t1 s).state = .running ∧
        (timer_update t1 s).current_progress < 1 ∧
        ∀ t2, t1 ≤ t2 → t2 < 2 ^ 32 → RunningInv (timer_update t1 s) t2)) := by
  obtain ⟨hrun, hst, ht, hd, h0, hct, htr⟩ := h
  have hT1 : runTargetAt s t1 ≤ 1 := runTargetAt_le_one s t1 hd
  by_cases hcase : total_duration_ticks s ≤ wsub t1 s.timer_start_time_ticks
  · rw [timer_update_run_complete_eq s t1 hrun hcase]
    have hc1 : s.current_progress ≤ 1 := le_trans hct (le_trans htr hT1)
    obtain ⟨hs1, hs2, hs3⟩ := smooth_mono h0 hc1 (le_refl (1 : ℚ))
    dsimp only
    rw [hs3]
    exact ⟨hs1, hs2, Or.inl ⟨hcase, rfl⟩⟩
  · rw [timer_update_run_tick_eq s t1 hrun hcase]
    have hcT : s.current_progress ≤ runTargetAt s t1 := le_trans hct htr
    have hTlt : runTargetAt s t1 < 1 := runTargetAt_lt_one s t1 hd hcase
    obtain ⟨hs1, hs2, hs3⟩ := smooth_mono h0 hcT hT1
    dsimp only
    rw [hs3]
    refine ⟨hs1, le_trans hs2 hT1, Or.inr ⟨hcase, hrun, lt_of_le_of_lt hs2 hTlt,
      ?_⟩⟩
    intro t2 h12 ht2
    refine ⟨hrun, le_trans hst h12, ht2, hd, le_trans h0 hs1, hs2, ?_⟩
    exact le_trans (le_of_eq rfl) (runTargetAt_mono s t1 t2 h12 hst ht2 hd)

theorem completed_update_progress (s : TimerSt) (t : Nat)
    (hs : s.state = .completed) :
    (timer_update t s).current_progress = 1 := by
  rcases s with ⟨st, dur, stt, gr, al, cp, tp⟩
  simp only at hs
  subst hs
  simp only [timer_update]
  split <;> rfl

/-- Claim C3: while the timer is Running, the progress reported by
`timer_get_progress` is monotonically non-decreasing across consecutive
`timer_update` ticks (no intervening button event); it stays strictly
below 1.0 while the state remains Running, the state becomes Completed
exactly when elapsed ≥ duration (in ticks), and progress reaches exactly
1.0 on the update tick after completion. -/
theorem timer_progress_monotone (s : TimerSt) (t1 t2 : Nat)
    (hinv : RunningInv s t1) (h12 : t1 ≤ t2) (ht2 : t2 < 2 ^ 32) :
    timer_get_progress s ≤ timer_get_progress (timer_update t1 s) ∧
    timer_get_progress (timer_update t1 s) ≤
      timer_get_progress (timer_update t2 (timer_update t1 s)) ∧
    ((timer_update t1 s).state = .running →
      timer_get_progress (timer_update t1 s) < 1) ∧
    ((timer_update t1 s).state = .completed ↔
      total_duration_ticks s ≤ wsub t1 s.timer_start_time_ticks) ∧
    ((timer_update t1 s).state = .completed →
      timer_get_progress (timer_update t2 (timer_update t1 s)) = 1) := by
  obtain ⟨hmono, hle1, hdisj⟩ := timer_update_running_step s t1 hinv
  simp only [timer_get_progress]
  rcases hdisj with ⟨hc, hcomp⟩ | ⟨hc, hrun, hlt, hInv2⟩
  · have h2 := completed_update_progress (timer_update t1 s) t2 hcomp
    refine ⟨hmono, ?_, ?_, ⟨fun _ => hc, fun _ => hcomp⟩, fun _ => h2⟩
    · rw [h2]
      exact hle1
    · intro hr
      rw [hcomp] at hr
      cases hr
  · obtain ⟨hmono2, _, _⟩ :=
      timer_update_running_step (timer_update t1 s) t2 (hInv2 t2 h12 ht2)
    refine ⟨hmono, hmono2, fun _ => hlt, ?_, ?_⟩
    · constructor
      · intro hcomp
        rw [hrun] at hcomp
        cases hcomp
      · intro hle
        exact absurd hle hc
    · intro hcomp
      rw [hrun] at hcomp
      cases hcomp

/-- A freshly started 15-minute session at tick 0 (the state
`timer_start 0 15` produces from the initial state), used as the concrete
instance of the Running invariant. -/
def runWitnessState : TimerSt := (timer_start 0 15 timer_init).snd

/-- Witness for C3: the invariant holds for a freshly started 15-minute
session at tick 0, and the theorem applies with updates at ticks 0 and
100. -/
theorem timer_progress_monotone_witness :
    (RunningInv runWitnessState 0 ∧ (0 : Nat) ≤ 100 ∧ (100 : Nat) < 2 ^ 32) ∧
    (timer_get_progress runWitnessState ≤
        timer_get_progress (timer_update 0 runWitnessState) ∧
      timer_get_progress (timer_update 0 runWitnessState) ≤
        timer_get_progress (timer_update 100 (timer_update 0 runWitnessState)) ∧
      ((timer_update 0 runWitnessState).state = .running →
        timer_get_progress (timer_update 0 runWitnessState) < 1) ∧
      ((timer_update 0 runWitnessState).state = .completed ↔
        total_duration_ticks runWitnessState ≤
          wsub 0 runWitnessState.timer_start_time_ticks) ∧
      ((timer_update 0 runWitnessState).state = .completed →
        timer_get_progress (timer_update 100 (timer_update 0 runWitnessState))
          = 1)) :=
  ⟨⟨by
      norm_num [RunningInv, runWitnessState, runTargetAt, wsub,
        total_duration_ticks, pdMsToTicks, configTICK_RATE_HZ, timer_start,
        timer_init, timer_stop, timer_durations, TIMER_DURATION_5MIN,
        TIMER_DURATION_15MIN, TIMER_DURATION_30MIN, TIMER_DURATION_45MIN,
        TIMER_DURATION_60MIN],
    by decide, by decide⟩,
   timer_progress_monotone runWitnessState 0 100
     (by
       norm_num [RunningInv, runWitnessState, runTargetAt, wsub,
         total_duration_ticks, pdMsToTicks, configTICK_RATE_HZ, timer_start,
         timer_init, timer_stop, timer_durations, TIMER_DURATION_5MIN,
         TIMER_DURATION_15MIN, TIMER_DURATION_30MIN, TIMER_DURATION_45MIN,
         TIMER_DURATION_60MIN])
     (by decide) (by decide)⟩

/-! ## Button input classifier (button.c) -/

/-- button.h: `button_press_type_t`. -/
inductive PressType where
  | short
  | long
deriving DecidableEq, Repr

/-- button.c: `button_state_t` for a single button, together with that
button's slot of the task-local `last_debounce_time` array (the `gpio`
field is omitted: the GPIO-to-index lookup is outside the classifier). -/
structure ButtonSt where
  pressed : Bool
  press_start_time : Nat
  event_sent : Bool
  last_debounce_time : Nat
deriving DecidableEq, Repr

/-- button.c: one iteration of `button_task` processing a raw edge event
(`level` = 1 rising, 0 falling) on this button at tick `now`. Returns the
updated button state and the event delivered to the callback, if any. -/
def button_task_step (now level : Nat) (b : ButtonSt) :
    ButtonSt × Option PressType :=
  if pdMsToTicks DEBOUNCE_MS < wsub now b.last_debounce_time then
    let b1 : ButtonSt := { b with last_debounce_time := now }
    if level = 1 then
      ({ b1 with
          pressed := true
          press_start_time := now
          event_sent := false }, none)
    else
      if b1.pressed then
        let press_duration_ms :=
          wsub now b1.press_start_time * 1000 / configTICK_RATE_HZ
        let press_type :=
          if LONG_PRESS_MS ≤ press_duration_ms then PressType.long
          else PressType.short
        if !b1.event_sent then
          ({ b1 with pressed := false, event_sent := false }, some press_type)
        else
          ({ b1 with pressed := false, event_sent := false }, none)
      else
        (b1, none)
  else
    (b, none)

/-- button.c: one visit of `button_long_press_check_task`'s periodic
sweep to this button at tick `now`. -/
def button_long_press_check (now : Nat) (b : ButtonSt) :
    ButtonSt × Option PressType :=
  if b.pressed && !b.event_sent then
    if LONG_PRESS_MS ≤ wsub now b.press_start_time * 1000 / configTICK_RATE_HZ
    then
      ({ b with event_sent := true }, some PressType.long)
    else
      (b, none)
  else
    (b, none)

theorem button_task_step_rejected (now level : Nat) (b : ButtonSt)
    (hc : ¬ pdMsToTicks DEBOUNCE_MS < wsub now b.last_debounce_time) :
    button_task_step now level b = (b, none) := by
  unfold button_task_step
  rw [if_neg hc]

theorem button_task_step_accepted_debounce (now level : Nat) (b : ButtonSt)
    (hc : pdMsToTicks DEBOUNCE_MS < wsub now b.last_debounce_time) :
    (button_task_step now level b).fst.last_debounce_time = now := by
  unfold button_task_step
  rw [if_pos hc]
  dsimp only
  split_ifs <;> rfl

/-! ## Claim C8 -/

/-- Claim C8: two raw edges on the same button within the 50 ms debounce
window of each other produce at most one classified event, and an edge
arriving within the 50 ms window of the last accepted edge is ignored
entirely — the button state and its timing are untouched and no event is
emitted. -/
theorem debounce_at_most_one_event (b : ButtonSt) (t1 t2 l1 l2 : Nat)
    (h12 : t1 ≤ t2) (ht2 : t2 < 2 ^ 32) (hdb : b.last_debounce_time ≤ t1)
    (hwin : t2 - t1 ≤ pdMsToTicks DEBOUNCE_MS) :
    ¬((button_task_step t1 l1 b).snd ≠ none ∧
      (button_task_step t2 l2 (button_task_step t1 l1 b).fst).snd ≠ none) ∧
    (wsub t1 b.last_debounce_time ≤ pdMsToTicks DEBOUNCE_MS →
      button_task_step t1 l1 b = (b, none)) := by
  have h5 : pdMsToTicks DEBOUNCE_MS = 5 := by decide
  constructor
  · rintro ⟨h1, h2⟩
    by_cases hc : pdMsToTicks DEBOUNCE_MS < wsub t1 b.last_debounce_time
    · have hld := button_task_step_accepted_debounce t1 l1 b hc
      have hc2 : ¬ pdMsToTicks DEBOUNCE_MS <
          wsub t2 (button_task_step t1 l1 b).fst.last_debounce_time := by
        rw [hld, wsub_eq_sub h12 ht2, h5]
        rw [h5] at hwin
        omega
      exact h2 (by rw [button_task_step_rejected t2 l2 _ hc2])
    · exact h1 (by rw [button_task_step_rejected t1 l1 b hc])
  · intro hw
    refine button_task_step_rejected t1 l1 b ?_
    omega

/-- Witness for C8: an idle button whose last accepted edge was at tick 0
receives a falling edge at tick 100 and a rising edge at tick 103
(30 ms later): the pair yields at most one event. -/
theorem debounce_at_most_one_event_witness :
    ((100 : Nat) ≤ 103 ∧ (103 : Nat) < 2 ^ 32 ∧
      (⟨false, 0, false, 0⟩ : ButtonSt).last_debounce_time ≤ 100 ∧
      103 - 100 ≤ pdMsToTicks DEBOUNCE_MS) ∧
    (¬((button_task_step 100 0 ⟨false, 0, false, 0⟩).snd ≠ none ∧
        (button_task_step 103 1
          (button_task_step 100 0 ⟨false, 0, false, 0⟩).fst).snd ≠ none) ∧
      (wsub 100 (⟨false, 0, false, 0⟩ : ButtonSt).last_debounce_time ≤
          pdMsToTicks DEBOUNCE_MS →
        button_task_step 100 0 ⟨false, 0, false, 0⟩ =
          (⟨false, 0, false, 0⟩, none))) :=
  ⟨⟨by decide, by decide, by decide, by decide⟩,
   debounce_at_most_one_event ⟨false, 0, false, 0⟩ 100 103 0 1
     (by decide) (by decide) (by decide) (by decide)⟩

/-! ## Claim C7 -/

/-- Claim C7: a button held past the 500 ms long-press threshold while
still pressed gets exactly one Long event from the periodic sweep: the
sweep emits Long and marks the event sent; a later sweep visit emits
nothing and changes nothing; and the eventual release edge emits no
further event — never one Short plus one Long for the same press. -/
theorem long_press_single_event (b : ButtonSt) (t1 t2 : Nat)
    (hp : b.pressed = true) (hsent : b.event_sent = false)
    (hheld : LONG_PRESS_MS ≤
      wsub t1 b.press_start_time * 1000 / configTICK_RATE_HZ) :
    (button_long_press_check t1 b).snd = some PressType.long ∧
    (button_long_press_check t1 b).fst.event_sent = true ∧
    (button_long_press_check t2 (button_long_press_check t1 b).fst).snd =
      none ∧
    (button_long_press_check t2 (button_long_press_check t1 b).fst).fst =
      (button_long_press_check t1 b).fst ∧
    (button_task_step t2 0 (button_long_press_check t1 b).fst).snd = none := by
  rcases b with ⟨p, pst, es, ldb⟩
  simp only at hp hsent hheld
  subst hp
  subst hsent
  have h1 : button_long_press_check t1 ⟨true, pst, false, ldb⟩ =
      (⟨true, pst, true, ldb⟩, some PressType.long) := by
    unfold button_long_press_check
    simp [hheld]
  rw [h1]
  refine ⟨rfl, rfl, ?_, ?_, ?_⟩
  · unfold button_long_press_check
    simp
  · unfold button_long_press_check
    simp
  · unfold button_task_step
    split_ifs <;> rfl

/-- Witness for C7: a button pressed at tick 0, still held at the sweep
at tick 60 (600 ms), then released at tick 70: one Long event, and the
release is silent. -/
theorem long_press_single_event_witness :
    ((⟨true, 0, false, 0⟩ : ButtonSt).pressed = true ∧
      (⟨true, 0, false, 0⟩ : ButtonSt).event_sent = false ∧
      LONG_PRESS_MS ≤
        wsub 60 (⟨true, 0, false, 0⟩ : ButtonSt).press_start_time * 1000 /
          configTICK_RATE_HZ) ∧
    ((button_long_press_check 60 ⟨true, 0, false, 0⟩).snd =
        some PressType.long ∧
      (button_long_press_check 60 ⟨true, 0, false, 0⟩).fst.event_sent =
        true ∧
      (button_long_press_check 70
          (button_long_press_check 60 ⟨true, 0, false, 0⟩).fst).snd = none ∧
      (button_long_press_check 70
          (button_long_press_check 60 ⟨true, 0, false, 0⟩).fst).fst =
        (button_long_press_check 60 ⟨true, 0, false, 0⟩).fst ∧
      (button_task_step 70 0
          (button_long_press_check 60 ⟨true, 0, false, 0⟩).fst).snd = none) :=
  ⟨⟨by decide, by decide, by decide⟩,
   long_press_single_event ⟨true, 0, false, 0⟩ 60 70
     (by decide) (by decide) (by decide)⟩

/-! ## LED progress directives (led.c, windback version) -/

/-- ws2812_control.h / README: the bar has 10 LEDs. -/
def NUM_LEDS : Nat := 10

/-- led.h: `LED_COLOR_GREEN` (GRB format). -/
def LED_COLOR_GREEN : Nat := 0xFF0000

/-- led.h: `LED_COLOR_OFF`. -/
def LED_COLOR_OFF : Nat := 0x000000

/-- The static mutable state of led.c (the windback-capable version),
gathered into a record. Colors are 24-bit GRB values as `Nat`. -/
structure LedSt where
  led_colors : List Nat
  target_intensity : ℚ
  current_intensity : ℚ
  target_progress : ℚ
  current_progress : ℚ
  progress_color : Nat
  pulsing_enabled : Bool
  solid_mode : Bool
  pending_solid_mode : Bool
  pending_solid_color : Nat
  pending_start_transition : Bool
  pending_start_color : Nat
  pending_start_progress : ℚ
  pulsing_color : Nat
  pulse_time_ms : Nat
deriving DecidableEq, Repr

/-- led.c: `led_set_progress(progress, color)` — the directive the
orchestrator issues to show a progress bar. The C function first clamps
the progress argument to [0,1], then: if in solid mode it starts a
windback toward progress mode; if a windback to progress mode is already
pending it only updates the pending target; otherwise it sets the target
progress and color directly. In every case pulsing and any pending
switch to solid mode are cancelled. (The mutex-held and no-mutex
fallback paths of the C function perform identical updates.) -/
def led_set_progress (progress : ℚ) (color : Nat) (s : LedSt) : LedSt :=
  let p := clamp01 progress
  if s.solid_mode then
    { s with
        solid_mode := false
        current_progress := 1
        progress_color := s.led_colors.getD 0 0
        target_progress := 0
        pending_start_transition := true
        pending_start_color := color
        pending_start_progress := p
        pulsing_enabled := false
        pending_solid_mode := false }
  else if s.pending_start_transition then
    { s with
        pending_start_progress := p
        pulsing_enabled := false
        pending_solid_mode := false }
  else
    { s with
        target_progress := p
        progress_color := color
        pulsing_enabled := false
        pending_solid_mode := false }

/-- Claim C9: calling `led_set_progress` while a windback to progress
mode is already pending updates only the pending target progress: the
current progress, the progress color and the pending-transition flag are
unchanged, so the windback is not restarted. In plain progress-bar mode
(no windback pending) the call sets the target and color without
touching the current progress or starting a windback, and the call is
idempotent: repeating it with the same arguments is a no-op. -/
theorem led_set_progress_pending_in_place (s : LedSt) (p : ℚ) (c : Nat)
    (hsolid : s.solid_mode = false) :
    (led_set_progress p c s).current_progress = s.current_progress ∧
    (led_set_progress p c s).pending_start_transition =
      s.pending_start_transition ∧
    (s.pending_start_transition = true →
      (led_set_progress p c s).progress_color = s.progress_color ∧
      (led_set_progress p c s).pending_start_progress = clamp01 p) ∧
    (s.pending_start_transition = false →
      (led_set_progress p c s).target_progress = clamp01 p ∧
      (led_set_progress p c s).progress_color = c) ∧
    led_set_progress p c (led_set_progress p c s) = led_set_progress p c s := by
  rcases s with ⟨lc, ti, ci, tp, cp, pc, pe, sm, psm, psc, pst, pstc, pstp, plc,
    ptm⟩
  simp only at hsolid
  subst hsolid
  cases pst with
  | true => simp [led_set_progress]
  | false => simp [led_set_progress]

/-- An LED state mid-windback: solid mode already left, the transition to
progress mode still pending, the windback progress partway down. -/
def ledPendingWitness : LedSt :=
  { led_colors := List.replicate NUM_LEDS LED_COLOR_OFF
    target_intensity := 1
    current_intensity := 1
    target_progress := 0
    current_progress := 1
    progress_color := LED_COLOR_OFF
    pulsing_enabled := false
    solid_mode := false
    pending_solid_mode := false
    pending_solid_color := LED_COLOR_OFF
    pending_start_transition := true
    pending_start_color := LED_COLOR_GREEN
    pending_start_progress := 0
    pulsing_color := LED_COLOR_OFF
    pulse_time_ms := 0 }

/-- Witness for C9: a state mid-windback (pending transition to progress
mode) receives `led_set_progress 1`: only the pending target changes, and
the call is idempotent. -/
theorem led_set_progress_pending_in_place_witness :
    (ledPendingWitness.solid_mode = false) ∧
    ((led_set_progress 1 LED_COLOR_GREEN ledPendingWitness).current_progress =
        ledPendingWitness.current_progress ∧
      (led_set_progress 1 LED_COLOR_GREEN
          ledPendingWitness).pending_start_transition =
        ledPendingWitness.pending_start_transition ∧
      (ledPendingWitness.pending_start_transition = true →
        (led_set_progress 1 LED_COLOR_GREEN ledPendingWitness).progress_color =
          ledPendingWitness.progress_color ∧
        (led_set_progress 1 LED_COLOR_GREEN
            ledPendingWitness).pending_start_progress = clamp01 1) ∧
      (ledPendingWitness.pending_start_transition = false →
        (led_set_progress 1 LED_COLOR_GREEN ledPendingWitness).target_progress =
          clamp01 1 ∧
        (led_set_progress 1 LED_COLOR_GREEN ledPendingWitness).progress_color =
          LED_COLOR_GREEN) ∧
      led_set_progress 1 LED_COLOR_GREEN
          (led_set_progress 1 LED_COLOR_GREEN ledPendingWitness) =
        led_set_progress 1 LED_COLOR_GREEN ledPendingWitness) :=
  ⟨rfl,
   led_set_progress_pending_in_place ledPendingWitness 1 LED_COLOR_GREEN rfl⟩
